import Mathlib

/-!
Verification of the tomochain-governance candidates API (`apis/candidates.js`).

Part 1 — reward-history aggregator (`GET /:candidate/:owner/getRewards`).
Part 2 — ownership-challenge protocol (`POST /:candidate/generateMessage`,
`POST /verifyScannedQR`, `GET /:candidate/getSignature`).

Reward amounts are modelled with `ℚ` (the source uses BigNumber.js,
arbitrary-precision decimal arithmetic); epochs with `Int` (JS numbers used
only in integer positions); timestamps with `Nat` (opaque instants).
-/

/-- Stable insertion of `x` into `l`, keeping `x` before any element of equal
key: models one step of a stable sort by `key` descending (JS
`Array.prototype.sort` with comparator `(a, b) => b.epoch - a.epoch` is
required to be stable). -/
def insertDescBy {α : Type} (key : α → Int) (x : α) : List α → List α
  | [] => [x]
  | y :: ys => if key y ≤ key x then x :: y :: ys else y :: insertDescBy key x ys

/-- Stable sort by `key` descending: model of `items.sort((a, b) =>
b.epoch - a.epoch)` and of the store's `.sort(\x7b epoch: -1 \x7d)`. -/
def sortDescBy {α : Type} (key : α → Int) : List α → List α
  | [] => []
  | x :: xs => insertDescBy key x (sortDescBy key xs)

/-- One `db.Status` document: per-epoch record with the three membership
arrays (`masternodes`, `penalties`, `proposes`) and `blockCreatedAt`. -/
structure StatusRecord where
  epoch : Int
  masternodes : List String
  penalties : List String
  proposes : List String
  blockCreatedAt : Nat
deriving DecidableEq

/-- One item of the merged reward history, as the route builds it. The JS
objects are heterogeneous: masternode and penalty items carry the amount in
field `masternodeReward`, propose items in field `reward`; an absent field is
`none`. -/
structure RewardHistoryEntry where
  epoch : Int
  masternodeReward : Option ℚ
  reward : Option ℚ
  signNumber : Nat
  status : String
  rewardTime : Option Nat
deriving DecidableEq

/-- Payload of the external `api/expose/rewardsByEpoch` service: the code
reads `signNumber` and `reward` from it and passes the rest (including the
epoch and reward time the service echoes) through unchanged. -/
structure RewardPayload where
  epoch : Int
  signNumber : Nat
  reward : ℚ
  rewardTime : Nat
deriving DecidableEq

/-- Mapping of one masternode-epoch record, lines 660–691 of
`apis/candidates.js`: call `rewardsByEpoch(address, owner, 'Voter', epoch)`;
on a payload, divide the configured pool by the epoch's total sign number
(falling back to the payload's `reward` when that total is zero or absent),
tag the payload with `masternodeReward` and `status`; on no payload,
synthesize a zero entry from the stored record. -/
def mnEntry (pool : ℚ) (rewardsByEpoch : String → String → String → Int → Option RewardPayload)
    (totalSignNumber : Int → Nat) (candidate owner : String) (m : StatusRecord) :
    RewardHistoryEntry :=
  match rewardsByEpoch candidate owner "Voter" m.epoch with
  | some result =>
    let totalSigners := totalSignNumber m.epoch
    let masternodeReward : ℚ :=
      if totalSigners ≠ 0 then pool * (result.signNumber : ℚ) / (totalSigners : ℚ)
      else result.reward
    { epoch := result.epoch, masternodeReward := some masternodeReward,
      reward := some result.reward, signNumber := result.signNumber,
      status := "MASTERNODE", rewardTime := some result.rewardTime }
  | none =>
    { epoch := m.epoch, masternodeReward := some 0, reward := none,
      signNumber := 0, status := "MASTERNODE", rewardTime := some m.blockCreatedAt }

/-- Mapping of one penalty record (lines 696–704): zero amount under
`masternodeReward`, status `SLASHED`, reward time from `blockCreatedAt`. -/
def penEntry (p : StatusRecord) : RewardHistoryEntry :=
  { epoch := p.epoch, masternodeReward := some 0, reward := none,
    signNumber := 0, status := "SLASHED", rewardTime := some p.blockCreatedAt }

/-- Mapping of one propose record (lines 709–717): zero amount under the
field `reward`, status `PROPOSED`, reward time from `blockCreatedAt`. -/
def proposeEntry (p : StatusRecord) : RewardHistoryEntry :=
  { epoch := p.epoch, masternodeReward := none, reward := some 0,
    signNumber := 0, status := "PROPOSED", rewardTime := some p.blockCreatedAt }

/-- Count query `db.Status.countDocuments(\x7b masternodes: \x7b $elemMatch:
\x7b $in: [candidate] \x7d \x7d \x7d)`. -/
def countMasternode (db : List StatusRecord) (candidate : String) : Nat :=
  (db.filter (fun r => r.masternodes.contains candidate)).length

/-- Count query over the `penalties` array. -/
def countPenalty (db : List StatusRecord) (candidate : String) : Nat :=
  (db.filter (fun r => r.penalties.contains candidate)).length

/-- Count query over the `proposes` array. -/
def countPropose (db : List StatusRecord) (candidate : String) : Nat :=
  (db.filter (fun r => r.proposes.contains candidate)).length

/-- A `db.Status.find(pred).sort(\x7b epoch: -1 \x7d).limit(limit).skip(skip)`
query: filter, sort by epoch descending, then apply skip before limit
(MongoDB applies skip, then limit, independent of chaining order). -/
def statusQuery (db : List StatusRecord) (pred : StatusRecord → Bool)
    (limit skip : Nat) : List StatusRecord :=
  ((sortDescBy (fun r => r.epoch) (db.filter pred)).drop skip).take limit

/-- The three per-category lists, mapped to entries and concatenated in the
source's order — propose, then penalty, then masternode (lines 721–724; the
`length > 0` guards are no-ops since concatenating an empty list is the
identity). -/
def mergedCategoryItems (db : List StatusRecord) (pool : ℚ)
    (rewardsByEpoch : String → String → String → Int → Option RewardPayload)
    (totalSignNumber : Int → Nat) (candidate owner : String)
    (limit skip : Nat) : List RewardHistoryEntry :=
  let masternodes := statusQuery db (fun r => r.masternodes.contains candidate) limit skip
  let penalties := statusQuery db (fun r => r.penalties.contains candidate) limit skip
  let proposes := statusQuery db (fun r => r.proposes.contains candidate) limit skip
  proposes.map proposeEntry ++ penalties.map penEntry
    ++ masternodes.map (mnEntry pool rewardsByEpoch totalSignNumber candidate owner)

/-- Response shape of the reward-history route: `items` and `total`. -/
structure RewardsResponse where
  items : List RewardHistoryEntry
  total : Nat
deriving DecidableEq

/-- Core of `GET /:candidate/:owner/getRewards` (lines 634–731): merge the
three category lists, sort by epoch descending (stable), slice to `limit`,
and report `total` as the sum of the three independent count queries. -/
def getRewards (db : List StatusRecord) (pool : ℚ)
    (rewardsByEpoch : String → String → String → Int → Option RewardPayload)
    (totalSignNumber : Int → Nat) (candidate owner : String)
    (limit skip : Nat) : RewardsResponse :=
  { items := (sortDescBy (fun e => e.epoch)
      (mergedCategoryItems db pool rewardsByEpoch totalSignNumber candidate owner limit skip)).take limit,
    total := countMasternode db candidate + countPenalty db candidate
      + countPropose db candidate }

/-- Validation of the `limit` query parameter (line 618–619):
`isInt(\x7b min: 0, max: 100 \x7d).optional()` — absent is accepted, present
must lie in 0..100. -/
def limitParamValid : Option Int → Bool
  | none => true
  | some n => decide (0 ≤ n ∧ n ≤ 100)

/-- Validation of the `page` query parameter (line 620):
`isNumeric(\x7b no_symbols: true \x7d).optional()` — digits only, hence a
nonnegative integer when present. -/
def pageParamValid : Option Int → Bool
  | none => true
  | some n => decide (0 ≤ n)

/-- Effective limit (line 630): the supplied value when present (the query
string "0" is truthy in JS, so 0 passes through), else 100. -/
def effectiveLimit : Option Int → Int
  | none => 100
  | some n => n

/-- Effective skip (line 632): `limit * (page - 1)` when a page was supplied,
else 0. -/
def effectiveSkip (page : Option Int) (limit : Int) : Int :=
  match page with
  | none => 0
  | some p => limit * (p - 1)

/-- Failures of the route: `validation` is the express-validator rejection
surfaced before any processing; `negativeSkip` is the MongoDB refusal of a
negative skip value, which the route surfaces as a generic failure through
`next(e)` — it arises when `page = 0` passes the digits-only page validator
and line 632 computes `skip = limit * (0 - 1) = -limit < 0`. -/
inductive RewardsRouteError where
  | validation
  | negativeSkip
deriving DecidableEq

/-- Whole route `GET /:candidate/:owner/getRewards` (lines 617–735):
parameter validation, defaulting, then the aggregation core. A negative skip
(page 0 with a positive limit) makes the store throw, aborting the request;
past that guard limit (validated into 0..100) and skip are nonnegative, so
the `.toNat` casts are exact. -/
def getRewardsHandler (db : List StatusRecord) (pool : ℚ)
    (rewardsByEpoch : String → String → String → Int → Option RewardPayload)
    (totalSignNumber : Int → Nat) (candidate owner : String)
    (limitParam pageParam : Option Int) : Except RewardsRouteError RewardsResponse :=
  if limitParamValid limitParam && pageParamValid pageParam then
    let limit := effectiveLimit limitParam
    let skip := effectiveSkip pageParam limit
    if skip < 0 then .error .negativeSkip
    else .ok (getRewards db pool rewardsByEpoch totalSignNumber candidate owner
      limit.toNat skip.toNat)
  else .error .validation

/-- ASCII lowercasing, the model of JavaScript `String.prototype.toLowerCase`
on hex-encoded addresses. -/
def lowercase (s : String) : String := ⟨s.data.map Char.toLower⟩

/-- One `db.Signature` document: the persisted ownership challenge.
`status = true` is the ISSUED state, `status = false` the CONSUMED state;
`message` and `signature` are absent until consumption stores them. -/
structure SignatureRec where
  signedAddress : String
  signedId : String
  message : Option String
  signature : Option String
  status : Bool
deriving DecidableEq

/-- Lookup `db.Signature.findOne(\x7b signedId: id \x7d)`: first record with
the given token. -/
def findBySignedId (st : List SignatureRec) (id : String) : Option SignatureRec :=
  st.find? (fun r => r.signedId == id)

/-- `db.Signature.findOneAndUpdate(filter, data, \x7b upsert: true \x7d)`:
apply `f` (the $set of `data`) to the first record matching `p`, or append
the freshly inserted document `mk` when none matches. -/
def findOneAndUpdate (p : SignatureRec → Bool) (f : SignatureRec → SignatureRec)
    (mk : SignatureRec) : List SignatureRec → List SignatureRec
  | [] => [mk]
  | r :: rs => if p r then f r :: rs else r :: findOneAndUpdate p f mk rs

/-- Failure of `POST /:candidate/generateMessage`: the 406 "This address is
not a candidate" response. -/
inductive IssueError where
  | unknownCandidate
deriving DecidableEq

/-- `POST /:candidate/generateMessage` (lines 801–840): lower-case the
account, look the raw candidate param up in the candidate table, build the
challenge message around the supplied timestamp, and upsert
`\x7b signedId, status: true \x7d` keyed by the account. Returns the message,
the fresh token and the updated store (the verification URL, a urljoin of the
configured base URL and the token, is elided). `candidates` is the set of
registered candidate addresses, stored lower-cased. -/
def generateMessage (candidates : List String) (st : List SignatureRec)
    (candidateParam accountRaw now newId : String) :
    Except IssueError (String × String × List SignatureRec) :=
  let account := lowercase accountRaw
  match candidates.find? (fun c => c == candidateParam) with
  | none => .error .unknownCandidate
  | some _ =>
    let message := "[Tomomaster " ++ now ++ "]" ++ " I am the owner of candidate "
      ++ "[" ++ candidateParam ++ "]"
    .ok (message, newId,
      findOneAndUpdate (fun r => r.signedAddress == account)
        (fun r => { r with signedId := newId, status := true })
        { signedAddress := account, signedId := newId, message := none,
          signature := none, status := true } st)

/-- Failures of `POST /verifyScannedQR`, in the order the code raises them:
"id is not match", "Cannot use a QR code twice", "The Signature Message
Verification Failed". -/
inductive ConsumeError where
  | unknownToken
  | alreadyConsumed
  | signatureMismatch
deriving DecidableEq

/-- `POST /verifyScannedQR` (lines 842–889): look the challenge up by token;
unknown token and non-ISSUED state fail before any recovery; then the signer
is recovered from `(message, signature)` (modelled by the pure oracle
`recover`, lower-cased as the code does) and the three equality checks guard
a single generic failure; on success the message, signature and CONSUMED
state are stored by an upsert keyed on the recovered address. -/
def verifyScannedQR (recover : String → String → String) (st : List SignatureRec)
    (id message signature signerRaw : String) :
    Except ConsumeError (List SignatureRec) :=
  let signer := lowercase signerRaw
  match findBySignedId st id with
  | none => .error .unknownToken
  | some checkId =>
    if checkId.status = false then .error .alreadyConsumed
    else
      let signedAddress := lowercase (recover message signature)
      if signer ≠ signedAddress ∨ checkId.signedAddress ≠ signedAddress
          ∨ id ≠ checkId.signedId then .error .signatureMismatch
      else .ok (findOneAndUpdate (fun r => r.signedAddress == signedAddress)
        (fun r => { r with signedId := id, message := some message,
                           signature := some signature, status := false })
        { signedAddress := signedAddress, signedId := id, message := some message,
          signature := some signature, status := false } st)

/-- Outcome of `GET /:candidate/getSignature`: either the stored signature
field or the "No data" response. -/
inductive ReadResult where
  | data : Option String → ReadResult
  | noData
deriving DecidableEq

/-- `GET /:candidate/getSignature` (lines 891–917): a pure read — find the
record by token and return its stored signature only when the challenge is
CONSUMED (`status` false); the store is returned unchanged because the
handler performs no write. -/
def getSignature (st : List SignatureRec) (id : String) :
    ReadResult × List SignatureRec :=
  match findBySignedId st id with
  | some r => if r.status = false then (.data r.signature, st) else (.noData, st)
  | none => (.noData, st)

/-- Membership in a stable insertion: the inserted element plus the old
ones. -/
theorem mem_insertDescBy {α : Type} (key : α → Int) (x a : α) (l : List α) :
    a ∈ insertDescBy key x l ↔ a = x ∨ a ∈ l := by
  induction l with
  | nil => simp [insertDescBy]
  | cons y ys ih =>
    by_cases h : key y ≤ key x
    · simp [insertDescBy, h]
    · simp only [insertDescBy, if_neg h, List.mem_cons, ih]
      tauto

/-- Stable insertion preserves the epoch-descending ordering. -/
theorem pairwise_insertDescBy {α : Type} (key : α → Int) (x : α) (l : List α)
    (h : l.Pairwise (fun a b => key b ≤ key a)) :
    (insertDescBy key x l).Pairwise (fun a b => key b ≤ key a) := by
  induction l with
  | nil => simp [insertDescBy]
  | cons y ys ih =>
    rw [List.pairwise_cons] at h
    by_cases hxy : key y ≤ key x
    · simp only [insertDescBy, if_pos hxy]
      refine List.Pairwise.cons ?_ (List.Pairwise.cons h.1 h.2)
      intro b hb
      rcases List.mem_cons.mp hb with rfl | hb'
      · exact hxy
      · exact le_trans (h.1 b hb') hxy
    · simp only [insertDescBy, if_neg hxy]
      refine List.Pairwise.cons ?_ (ih h.2)
      intro b hb
      rcases (mem_insertDescBy key x b ys).mp hb with rfl | hb'
      · exact le_of_lt (not_le.mp hxy)
      · exact h.1 b hb'

/-- The stable sort produces a key-descending list. -/
theorem pairwise_sortDescBy {α : Type} (key : α → Int) (l : List α) :
    (sortDescBy key l).Pairwise (fun a b => key b ≤ key a) := by
  induction l with
  | nil => simp [sortDescBy]
  | cons x xs ih =>
    simp only [sortDescBy]
    exact pairwise_insertDescBy key x _ ih

/-- Equal-key slice of a stable insertion: the inserted element lands in
front of the equal-key elements already present only when its key is
strictly larger — restricted to one key value, insertion is a cons or a
no-op. -/
theorem filter_insertDescBy {α : Type} (key : α → Int) (x : α) (l : List α) (e : Int) :
    (insertDescBy key x l).filter (fun a => key a == e)
      = if key x == e then x :: l.filter (fun a => key a == e)
        else l.filter (fun a => key a == e) := by
  induction l with
  | nil =>
    by_cases hx : (key x == e) = true <;> simp [insertDescBy, List.filter_cons, hx]
  | cons y ys ih =>
    by_cases hxy : key y ≤ key x
    · by_cases hx : (key x == e) = true <;>
        simp [insertDescBy, if_pos hxy, List.filter_cons, hx]
    · simp only [insertDescBy, if_neg hxy]
      rw [List.filter_cons, List.filter_cons]
      by_cases hx : (key x == e) = true
      · have hxe : key x = e := by simpa using hx
        have hy : (key y == e) = false := by
          have hlt : key x < key y := not_le.mp hxy
          simp only [beq_eq_false_iff_ne, ne_eq]
          omega
        simp [hx, hy, ih]
      · simp [hx, ih]

/-- Stability of the sort: for each key value `e`, the equal-key entries of
the sorted list are exactly those of the input, in the input's order. -/
theorem filter_sortDescBy {α : Type} (key : α → Int) (l : List α) (e : Int) :
    (sortDescBy key l).filter (fun a => key a == e) = l.filter (fun a => key a == e) := by
  induction l with
  | nil => rfl
  | cons x xs ih =>
    simp only [sortDescBy]
    rw [filter_insertDescBy, ih, List.filter_cons]


theorem findBySignedId_findOneAndUpdate (addr id : String)
    (f : SignatureRec → SignatureRec) (mk : SignatureRec)
    (hf : ∀ r, (f r).signedId = id)
    (st : List SignatureRec) (c : SignatureRec)
    (hfind : findBySignedId st id = some c) (haddr : c.signedAddress = addr) :
    ∃ r, findBySignedId
        (findOneAndUpdate (fun x => x.signedAddress == addr) f mk st) id
      = some (f r) := by
  induction st with
  | nil => simp [findBySignedId, List.find?] at hfind
  | cons x xs ih =>
    by_cases hx : (x.signedAddress == addr) = true
    · refine ⟨x, ?_⟩
      have hfx : ((f x).signedId == id) = true := by simp [hf]
      simp [findOneAndUpdate, hx, findBySignedId, List.find?, hfx]
    · by_cases hid : (x.signedId == id) = true
      · exfalso
        apply hx
        simp only [findBySignedId, List.find?, hid] at hfind
        obtain rfl : x = c := by injection hfind
        simp [haddr]
      · have hid' : (x.signedId == id) = false := by simpa using hid
        rw [findBySignedId, List.find?] at hfind
        simp only [hid'] at hfind
        obtain ⟨r, hr⟩ := ih hfind
        refine ⟨r, ?_⟩
        rw [findOneAndUpdate]
        rw [if_neg (by simpa using hx)]
        rw [findBySignedId, List.find?]
        simp only [hid']
        exact hr

theorem verifyScannedQR_eq_mismatch (recover : String → String → String)
    (st : List SignatureRec) (id message signature signer : String)
    (c : SignatureRec) (hfind : findBySignedId st id = some c)
    (hissued : c.status = true)
    (hm : ¬ (lowercase signer = lowercase (recover message signature)
      ∧ c.signedAddress = lowercase (recover message signature)
      ∧ id = c.signedId)) :
    verifyScannedQR recover st id message signature signer
      = .error .signatureMismatch := by
  unfold verifyScannedQR
  rw [hfind]
  simp only [hissued]
  rw [if_neg (by simp)]
  rw [if_pos]
  tauto

theorem verifyScannedQR_eq_ok (recover : String → String → String)
    (st : List SignatureRec) (id message signature signer : String)
    (c : SignatureRec) (hfind : findBySignedId st id = some c)
    (hissued : c.status = true)
    (h1 : lowercase signer = lowercase (recover message signature))
    (h2 : c.signedAddress = lowercase (recover message signature))
    (h3 : id = c.signedId) :
    verifyScannedQR recover st id message signature signer
      = .ok (findOneAndUpdate
          (fun r => r.signedAddress == lowercase (recover message signature))
          (fun r => { r with signedId := id, message := some message,
                             signature := some signature, status := false })
          { signedAddress := lowercase (recover message signature), signedId := id,
            message := some message, signature := some signature, status := false }
          st) := by
  unfold verifyScannedQR
  rw [hfind]
  simp only [hissued]
  rw [if_neg (by simp)]
  rw [if_neg]
  push_neg
  exact ⟨h1, h2, h3⟩

/-- C1: the reward-history items are sorted by epoch descending, and the
merge sort is stable over the concatenation propose ++ penalty ++
masternode: for each epoch value, the equal-epoch entries of the sorted list
are exactly the equal-epoch entries of that concatenation in order, and the
returned (re-truncated) list keeps a subsequence of them in the same
order. -/
theorem getRewards_items_sorted_and_stable (db : List StatusRecord) (pool : ℚ)
    (rbe : String → String → String → Int → Option RewardPayload)
    (tsn : Int → Nat) (candidate owner : String) (limit skip : Nat) :
    ((getRewards db pool rbe tsn candidate owner limit skip).items).Pairwise
        (fun a b => b.epoch ≤ a.epoch)
      ∧ (∀ e : Int,
        (sortDescBy (fun a => a.epoch)
            (mergedCategoryItems db pool rbe tsn candidate owner limit skip)).filter
            (fun a => a.epoch == e)
          = (mergedCategoryItems db pool rbe tsn candidate owner limit skip).filter
            (fun a => a.epoch == e))
      ∧ (∀ e : Int,
        List.Sublist
          (((getRewards db pool rbe tsn candidate owner limit skip).items).filter
            (fun a => a.epoch == e))
          ((mergedCategoryItems db pool rbe tsn candidate owner limit skip).filter
            (fun a => a.epoch == e))) := by
  refine ⟨?_, ?_, ?_⟩
  · exact (pairwise_sortDescBy _ _).sublist (List.take_sublist _ _)
  · intro e
    exact filter_sortDescBy _ _ e
  · intro e
    have h : List.Sublist
        (((getRewards db pool rbe tsn candidate owner limit skip).items).filter
          (fun a => a.epoch == e))
        ((sortDescBy (fun a => a.epoch)
          (mergedCategoryItems db pool rbe tsn candidate owner limit skip)).filter
          (fun a => a.epoch == e)) :=
      (List.take_sublist _ _).filter _
    rw [filter_sortDescBy] at h
    exact h

/-- C2: the response holds at most `limit` items, and its `total` is the sum
of the three independently computed category counts. -/
theorem getRewards_limit_and_total (db : List StatusRecord) (pool : ℚ)
    (rbe : String → String → String → Int → Option RewardPayload)
    (tsn : Int → Nat) (candidate owner : String) (limit skip : Nat) :
    (getRewards db pool rbe tsn candidate owner limit skip).items.length ≤ limit
      ∧ (getRewards db pool rbe tsn candidate owner limit skip).total
        = countMasternode db candidate + countPenalty db candidate
          + countPropose db candidate :=
  ⟨List.length_take_le _ _, rfl⟩

/-- C3: a masternode record's reward is the pool apportioned by sign numbers
(in exact arbitrary-precision arithmetic) when the service answers and the
total signer count is nonzero; the payload's own `reward` when that count is
zero or absent; and a synthesized zero entry with `rewardTime` from the
stored `blockCreatedAt` when the service returns no payload. -/
theorem mnEntry_reward_resolution (pool : ℚ)
    (rbe : String → String → String → Int → Option RewardPayload)
    (tsn : Int → Nat) (candidate owner : String) (m : StatusRecord) :
    (∀ pl, rbe candidate owner "Voter" m.epoch = some pl →
        (tsn m.epoch ≠ 0 →
          (mnEntry pool rbe tsn candidate owner m).masternodeReward
            = some (pool * (pl.signNumber : ℚ) / (tsn m.epoch : ℚ)))
        ∧ (tsn m.epoch = 0 →
          (mnEntry pool rbe tsn candidate owner m).masternodeReward
            = some pl.reward))
      ∧ (rbe candidate owner "Voter" m.epoch = none →
        mnEntry pool rbe tsn candidate owner m
          = { epoch := m.epoch, masternodeReward := some 0, reward := none,
              signNumber := 0, status := "MASTERNODE",
              rewardTime := some m.blockCreatedAt }) := by
  constructor
  · intro pl hpl
    constructor <;> intro ht <;> simp [mnEntry, hpl, ht]
  · intro h
    simp [mnEntry, h]

/-- Witness for C3 at the spec's worked example: pool 1000, payload sign
number 10, total signers 100 gives reward 100. -/
theorem mnEntry_reward_resolution_witness :
    (mnEntry 1000
        (fun _ _ _ e => some { epoch := e, signNumber := 10, reward := 7, rewardTime := 99 })
        (fun _ => 100) "0xc" "o"
        { epoch := 4, masternodes := ["0xc"], penalties := [], proposes := [],
          blockCreatedAt := 40 }).masternodeReward
      = some 100 := by
  have h := ((mnEntry_reward_resolution 1000
      (fun _ _ _ e => some { epoch := e, signNumber := 10, reward := 7, rewardTime := 99 })
      (fun _ => 100) "0xc" "o"
      { epoch := 4, masternodes := ["0xc"], penalties := [], proposes := [],
        blockCreatedAt := 40 }).1
      { epoch := 4, signNumber := 10, reward := 7, rewardTime := 99 } rfl).1
      (by norm_num)
  rw [h]
  norm_num

/-- C4 counterexample: a propose record's zero is stored under the field
`reward`, not under `masternodeReward`, the field that penalty (and
masternode) entries use — the three categories do not share one reward
field. -/
theorem propose_reward_field_differs :
    (proposeEntry { epoch := 5, masternodes := [], penalties := [],
                    proposes := ["0xc"], blockCreatedAt := 77 }).masternodeReward = none
      ∧ (penEntry { epoch := 5, masternodes := [], penalties := ["0xc"],
                    proposes := [], blockCreatedAt := 77 }).masternodeReward = some 0
      ∧ (proposeEntry { epoch := 5, masternodes := [], penalties := [],
                        proposes := ["0xc"], blockCreatedAt := 77 }).reward = some 0 :=
  ⟨rfl, rfl, rfl⟩

/-- C4 amended: penalty records map (with no external call) to entries with
epoch, status SLASHED, zero under `masternodeReward`, signNumber 0 and
rewardTime from `blockCreatedAt`; propose records likewise with status
PROPOSED, except their zero sits under the separate field `reward` and
`masternodeReward` is absent. -/
theorem penalty_propose_entry_shape (p : StatusRecord) :
    penEntry p = { epoch := p.epoch, masternodeReward := some 0, reward := none,
                   signNumber := 0, status := "SLASHED",
                   rewardTime := some p.blockCreatedAt }
      ∧ proposeEntry p = { epoch := p.epoch, masternodeReward := none,
                           reward := some 0, signNumber := 0, status := "PROPOSED",
                           rewardTime := some p.blockCreatedAt } :=
  ⟨rfl, rfl⟩

/-- C5: consume fails with the unknown-token error when no challenge carries
the token; fails with the already-consumed error, for every possible
recovery outcome, when the challenge is not ISSUED; and after any successful
consume, a second consume of the same token fails with the already-consumed
error whatever message, signature, signer or recovery it brings. -/
theorem verifyScannedQR_single_use (recover recover2 : String → String → String)
    (st : List SignatureRec)
    (id message signature signer message2 signature2 signer2 : String) :
    (findBySignedId st id = none →
        verifyScannedQR recover st id message signature signer
          = .error .unknownToken)
      ∧ (∀ c, findBySignedId st id = some c → c.status = false →
        verifyScannedQR recover st id message signature signer
          = .error .alreadyConsumed)
      ∧ (∀ st', verifyScannedQR recover st id message signature signer = .ok st' →
        verifyScannedQR recover2 st' id message2 signature2 signer2
          = .error .alreadyConsumed) := by
  refine ⟨?_, ?_, ?_⟩
  · intro h
    unfold verifyScannedQR
    rw [h]
  · intro c hc hstatus
    unfold verifyScannedQR
    rw [hc]
    simp [hstatus]
  · intro st' h
    unfold verifyScannedQR at h
    cases hfind : findBySignedId st id with
    | none => rw [hfind] at h; simp at h
    | some c =>
      rw [hfind] at h
      by_cases hst : c.status = false
      · simp [hst] at h
      · simp only [if_neg hst] at h
        by_cases hchk : lowercase signer ≠ lowercase (recover message signature)
            ∨ c.signedAddress ≠ lowercase (recover message signature)
            ∨ id ≠ c.signedId
        · rw [if_pos hchk] at h
          exact absurd h (by simp)
        · rw [if_neg hchk] at h
          push_neg at hchk
          obtain ⟨h1, h2, h3⟩ := hchk
          have hst' : st' = findOneAndUpdate
              (fun r => r.signedAddress == lowercase (recover message signature))
              (fun r => { r with signedId := id, message := some message,
                                 signature := some signature, status := false })
              { signedAddress := lowercase (recover message signature),
                signedId := id, message := some message,
                signature := some signature, status := false } st := by
            injection h with h'
            exact h'.symm
          obtain ⟨r, hr⟩ := findBySignedId_findOneAndUpdate
            (lowercase (recover message signature)) id
            (fun r => { r with signedId := id, message := some message,
                               signature := some signature, status := false })
            { signedAddress := lowercase (recover message signature),
              signedId := id, message := some message,
              signature := some signature, status := false }
            (fun _ => rfl) st c hfind h2
          unfold verifyScannedQR
          rw [hst', hr]
          simp

/-- Witness for C5: a concrete successful consume followed by a replay with
a different (even valid-looking) signature fails with the already-consumed
error. -/
theorem verifyScannedQR_single_use_witness :
    verifyScannedQR (fun _ _ => "0xEE")
        [{ signedAddress := "0xab", signedId := "tok1", message := some "msg",
           signature := some "sig", status := false }] "tok1" "m2" "s2" "0xZZ"
      = .error .alreadyConsumed :=
  (verifyScannedQR_single_use (fun _ _ => "0xAB") (fun _ _ => "0xEE")
      [{ signedAddress := "0xab", signedId := "tok1", message := none,
         signature := none, status := true }]
      "tok1" "msg" "sig" "0xAb" "m2" "s2" "0xZZ").2.2
    [{ signedAddress := "0xab", signedId := "tok1", message := some "msg",
       signature := some "sig", status := false }] rfl

/-- C6: on an ISSUED challenge, consume fails with the signature-mismatch
error unless the recovered address equals the claimed signer
(case-insensitively), the recovered address equals the stored claimed
address, and the token equals the stored token; when all three hold, the
consume succeeds and the challenge now carries the submitted message and
signature in the CONSUMED state. -/
theorem verifyScannedQR_checks_and_update (recover : String → String → String)
    (st : List SignatureRec) (id message signature signer : String)
    (c : SignatureRec) (hfind : findBySignedId st id = some c)
    (hissued : c.status = true) :
    (¬ (lowercase signer = lowercase (recover message signature)
        ∧ c.signedAddress = lowercase (recover message signature)
        ∧ id = c.signedId) →
      verifyScannedQR recover st id message signature signer
        = .error .signatureMismatch)
      ∧ ((lowercase signer = lowercase (recover message signature)
          ∧ c.signedAddress = lowercase (recover message signature)
          ∧ id = c.signedId) →
        ∃ st' u, verifyScannedQR recover st id message signature signer = .ok st'
          ∧ findBySignedId st' id = some u
          ∧ u.message = some message ∧ u.signature = some signature
          ∧ u.status = false) := by
  constructor
  · intro hm
    exact verifyScannedQR_eq_mismatch recover st id message signature signer c
      hfind hissued hm
  · rintro ⟨h1, h2, h3⟩
    obtain ⟨r, hr⟩ := findBySignedId_findOneAndUpdate
      (lowercase (recover message signature)) id
      (fun r => { r with signedId := id, message := some message,
                         signature := some signature, status := false })
      { signedAddress := lowercase (recover message signature), signedId := id,
        message := some message, signature := some signature, status := false }
      (fun _ => rfl) st c hfind h2
    refine ⟨_, _, verifyScannedQR_eq_ok recover st id message signature signer c
      hfind hissued h1 h2 h3, hr, rfl, rfl, rfl⟩

/-- Witness for C6: concrete successful consume stores the message and
signature and consumes the challenge. -/
theorem verifyScannedQR_checks_and_update_witness :
    ∃ st' u, verifyScannedQR (fun _ _ => "0xAB")
        [{ signedAddress := "0xab", signedId := "tok1", message := none,
           signature := none, status := true }] "tok1" "msg" "sig" "0xAb"
        = .ok st'
      ∧ findBySignedId st' "tok1" = some u
      ∧ u.message = some "msg" ∧ u.signature = some "sig" ∧ u.status = false :=
  (verifyScannedQR_checks_and_update (fun _ _ => "0xAB")
      [{ signedAddress := "0xab", signedId := "tok1", message := none,
         signature := none, status := true }]
      "tok1" "msg" "sig" "0xAb"
      { signedAddress := "0xab", signedId := "tok1", message := none,
        signature := none, status := true } rfl rfl).2 ⟨rfl, rfl, rfl⟩

/-- C7: when signature verification fails on an ISSUED challenge, the error
observable is the same value whichever of the three checks failed — any two
failing runs produce identical errors. -/
theorem verifyScannedQR_mismatch_uniform
    (recover1 recover2 : String → String → String)
    (st1 st2 : List SignatureRec)
    (id1 m1 s1 g1 id2 m2 s2 g2 : String) (c1 c2 : SignatureRec)
    (hfind1 : findBySignedId st1 id1 = some c1) (hissued1 : c1.status = true)
    (hm1 : ¬ (lowercase g1 = lowercase (recover1 m1 s1)
      ∧ c1.signedAddress = lowercase (recover1 m1 s1) ∧ id1 = c1.signedId))
    (hfind2 : findBySignedId st2 id2 = some c2) (hissued2 : c2.status = true)
    (hm2 : ¬ (lowercase g2 = lowercase (recover2 m2 s2)
      ∧ c2.signedAddress = lowercase (recover2 m2 s2) ∧ id2 = c2.signedId)) :
    verifyScannedQR recover1 st1 id1 m1 s1 g1
        = verifyScannedQR recover2 st2 id2 m2 s2 g2
      ∧ verifyScannedQR recover1 st1 id1 m1 s1 g1
        = .error .signatureMismatch := by
  have e1 := verifyScannedQR_eq_mismatch recover1 st1 id1 m1 s1 g1 c1
    hfind1 hissued1 hm1
  have e2 := verifyScannedQR_eq_mismatch recover2 st2 id2 m2 s2 g2 c2
    hfind2 hissued2 hm2
  exact ⟨e1.trans e2.symm, e1⟩

/-- Witness for C7: a wrong-signer failure and a wrong-stored-address failure
surface the identical error. -/
theorem verifyScannedQR_mismatch_uniform_witness :
    verifyScannedQR (fun _ _ => "0xEE")
        [{ signedAddress := "0xab", signedId := "tok1", message := none,
           signature := none, status := true }] "tok1" "m" "s" "0xab"
      = verifyScannedQR (fun _ _ => "0xcd")
        [{ signedAddress := "0xab", signedId := "tok2", message := none,
           signature := none, status := true }] "tok2" "m" "s" "0xcd" :=
  (verifyScannedQR_mismatch_uniform (fun _ _ => "0xEE") (fun _ _ => "0xcd")
    [{ signedAddress := "0xab", signedId := "tok1", message := none,
       signature := none, status := true }]
    [{ signedAddress := "0xab", signedId := "tok2", message := none,
       signature := none, status := true }]
    "tok1" "m" "s" "0xab" "tok2" "m" "s" "0xcd"
    { signedAddress := "0xab", signedId := "tok1", message := none,
      signature := none, status := true }
    { signedAddress := "0xab", signedId := "tok2", message := none,
      signature := none, status := true }
    rfl rfl (by simp [lowercase]) rfl rfl (by simp [lowercase])).1

/-- C8 amended: the account in issue and the signer in consume are compared
case-insensitively — both operations are invariant under changing the letter
case of those arguments; the candidate address in issue is NOT treated this
way (see the counterexample). -/
theorem account_signer_case_insensitive (candidates : List String)
    (st st2 : List SignatureRec) (candidateParam a1 a2 now newId : String)
    (recover : String → String → String) (id message signature g1 g2 : String)
    (ha : lowercase a1 = lowercase a2) (hg : lowercase g1 = lowercase g2) :
    generateMessage candidates st candidateParam a1 now newId
        = generateMessage candidates st candidateParam a2 now newId
      ∧ verifyScannedQR recover st2 id message signature g1
        = verifyScannedQR recover st2 id message signature g2 := by
  constructor
  · unfold generateMessage
    rw [ha]
  · unfold verifyScannedQR
    rw [hg]

/-- Witness for C8 amended at concrete mixed-case account and signer. -/
theorem account_signer_case_insensitive_witness :
    generateMessage ["0xab"] [] "0xab" "0xCD" "now" "tok"
        = generateMessage ["0xab"] [] "0xab" "0xcd" "now" "tok"
      ∧ verifyScannedQR (fun _ _ => "0xab") [] "t" "m" "s" "0xAB"
        = verifyScannedQR (fun _ _ => "0xab") [] "t" "m" "s" "0xab" :=
  account_signer_case_insensitive ["0xab"] [] [] "0xab" "0xCD" "0xcd" "now" "tok"
    (fun _ _ => "0xab") "t" "m" "s" "0xAB" "0xab" rfl rfl

/-- C8 counterexample: issuing a challenge for the registered (lower-case
stored) candidate `0xab` fails when the candidate address is supplied as
`0xAB` but succeeds as `0xab` — the candidate lookup in generateMessage is
case-sensitive, refuting case-insensitivity of every address argument. -/
theorem candidate_case_sensitive :
    generateMessage ["0xab"] [] "0xAB" "0xcd" "now" "tok"
        = .error .unknownCandidate
      ∧ generateMessage ["0xab"] [] "0xab" "0xcd" "now" "tok"
        = .ok ("[Tomomaster now] I am the owner of candidate [0xab]", "tok",
            [{ signedAddress := "0xcd", signedId := "tok", message := none,
               signature := none, status := true }]) :=
  ⟨rfl, rfl⟩

/-- C9 counterexample: a request with limit 0 — outside the claimed range
1..100 — passes validation and is processed normally instead of being
rejected with a validation error. -/
theorem limit_zero_accepted :
    limitParamValid (some 0) = true
      ∧ getRewardsHandler [] 0 (fun _ _ _ _ => none) (fun _ => 0) "c" "o"
          (some 0) none = .ok { items := [], total := 0 }
      ∧ ¬ (1 ≤ (0 : Int)) :=
  ⟨rfl, rfl, by decide⟩

/-- C9 amended: the accepted range of the limit parameter is 0..100 — any
supplied limit outside 0..100 is rejected with a validation error before any
processing — and an absent limit defaults to 100. The processed outcomes are
stated under a nonnegative effective skip; a validated request whose page
parameter makes the skip negative (page 0 with a positive limit) instead
aborts with the store's negative-skip error. -/
theorem limit_validation_amended (db : List StatusRecord) (pool : ℚ)
    (rbe : String → String → String → Int → Option RewardPayload)
    (tsn : Int → Nat) (candidate owner : String)
    (limitParam pageParam : Option Int)
    (hpage : pageParamValid pageParam = true) :
    (∀ n, limitParam = some n → (n < 0 ∨ 100 < n) →
        getRewardsHandler db pool rbe tsn candidate owner limitParam pageParam
          = .error .validation)
      ∧ (limitParam = none → 0 ≤ effectiveSkip pageParam 100 →
        getRewardsHandler db pool rbe tsn candidate owner limitParam pageParam
          = .ok (getRewards db pool rbe tsn candidate owner 100
              ((effectiveSkip pageParam 100).toNat)))
      ∧ (∀ n, limitParam = some n → 0 ≤ n → n ≤ 100 →
          0 ≤ effectiveSkip pageParam n →
        getRewardsHandler db pool rbe tsn candidate owner limitParam pageParam
          = .ok (getRewards db pool rbe tsn candidate owner n.toNat
              ((effectiveSkip pageParam n).toNat)))
      ∧ (effectiveSkip pageParam (effectiveLimit limitParam) < 0 →
          limitParamValid limitParam = true →
        getRewardsHandler db pool rbe tsn candidate owner limitParam pageParam
          = .error .negativeSkip) := by
  refine ⟨?_, ?_, ?_, ?_⟩
  · rintro n rfl hout
    have hv : limitParamValid (some n) = false := by
      simp [limitParamValid]
      omega
    unfold getRewardsHandler
    simp [hv]
  · rintro rfl hskip
    unfold getRewardsHandler
    simp only [limitParamValid, hpage, effectiveLimit, Bool.and_true, if_true]
    rw [if_neg (not_lt.mpr hskip)]
    simp [effectiveLimit]
  · rintro n rfl h0 h100 hskip
    have hv : limitParamValid (some n) = true := by
      simp [limitParamValid]
      omega
    unfold getRewardsHandler
    simp only [hv, hpage, Bool.and_self, if_true]
    rw [if_neg (not_lt.mpr (by simpa [effectiveLimit] using hskip))]
    simp [effectiveLimit]
  · intro hskip hv
    unfold getRewardsHandler
    simp only [hv, hpage, Bool.and_self, if_true]
    rw [if_pos hskip]

/-- Witness for C9 amended: limit 101 is rejected with the validation
error. -/
theorem limit_validation_amended_witness :
    getRewardsHandler [] 0 (fun _ _ _ _ => none) (fun _ => 0) "c" "o"
        (some 101) none = .error .validation :=
  (limit_validation_amended [] 0 (fun _ _ _ _ => none) (fun _ => 0) "c" "o"
      (some 101) none rfl).1 101 rfl (Or.inr (by decide))

/-- C10: the signature read is pure — it returns the store unchanged, so
repeated reads agree; a CONSUMED challenge yields its stored signature on
every read, while an unknown token or an ISSUED challenge yields the no-data
result on every read. -/
theorem getSignature_pure_read (st : List SignatureRec) (id : String) :
    (getSignature st id).2 = st
      ∧ getSignature ((getSignature st id).2) id = getSignature st id
      ∧ (∀ r, findBySignedId st id = some r → r.status = false →
          (getSignature st id).1 = .data r.signature)
      ∧ (findBySignedId st id = none → (getSignature st id).1 = .noData)
      ∧ (∀ r, findBySignedId st id = some r → r.status = true →
          (getSignature st id).1 = .noData) := by
  have h2 : (getSignature st id).2 = st := by
    unfold getSignature
    cases h : findBySignedId st id with
    | none => rfl
    | some r =>
      by_cases hs : r.status = false
      · simp [hs]
      · simp [hs]
  refine ⟨h2, by rw [h2], ?_, ?_, ?_⟩
  · intro r hr hs
    unfold getSignature
    rw [hr]
    simp [hs]
  · intro h
    unfold getSignature
    rw [h]
  · intro r hr hs
    unfold getSignature
    rw [hr]
    simp [hs]

/-- Witness for C10: reading a consumed challenge returns its stored
signature. -/
theorem getSignature_pure_read_witness :
    (getSignature [{ signedAddress := "0xab", signedId := "tok1",
                     message := some "m", signature := some "s",
                     status := false }]
      "tok1").1 = .data (some "s") :=
  (getSignature_pure_read
    [{ signedAddress := "0xab", signedId := "tok1", message := some "m",
       signature := some "s", status := false }] "tok1").2.2.1
    { signedAddress := "0xab", signedId := "tok1", message := some "m",
      signature := some "s", status := false } rfl rfl
